import Mathlib

/-!
Verification development for the deterministic fallback decision-and-explanation
engine of the Agentic-XAI repository.

The definitions below are a shallow embedding of the Python source:
  - `src/api/main.py`              (`create_sophisticated_fallback`)
  - `src/api/xai/explainer.py`     (`XAIExplainer`)
  - `src/api/models/agent.py`      (keyword dispatch of `_generate_intelligent_mock_decision`
                                    and `_generate_generic_decision`)

Modelling conventions:
  - Python `str` is modelled by Lean `String` (the inputs of interest are ASCII,
    so `str.lower` is modelled as ASCII lowercasing and `str.strip` as removal of
    leading and trailing whitespace characters).
  - Python floats are modelled by exact rationals `ℚ`; `round(x, 3)` is modelled
    as exact round-half-to-even at 3 decimal places.
  - `hashlib.md5`, an external library primitive, is modelled as an arbitrary
    function `String → Nat` passed explicitly as `seedHashFn`; every theorem in
    this file holds for every choice of that function.
  - The unbounded `while` loop of the risk-factor selection is modelled with an
    explicit fuel parameter; exhausting the fuel yields `PyError.outOfFuel`, and
    a Python `KeyError` (dict lookup miss) yields `PyError.keyError`.
-/

/-! ### Python string primitives -/

/-- Whitespace characters removed by Python `str.strip()`. -/
def pyIsSpaceChar (c : Char) : Bool :=
  c == ' ' || c == '\t' || c == '\n' || c == '\r' || c == '\x0b' || c == '\x0c'

/-- ASCII lowercasing of a single character, as Python `str.lower` acts on ASCII. -/
def asciiLowerChar (c : Char) : Char :=
  if 'A' ≤ c ∧ c ≤ 'Z' then Char.ofNat (c.toNat + 32) else c

/-- Model of Python `s.lower()`. -/
def pyLower (s : String) : String :=
  String.mk (s.data.map asciiLowerChar)

/-- Model of Python `s.strip()`: drop leading and trailing whitespace. -/
def pyStrip (s : String) : String :=
  String.mk (((s.data.dropWhile pyIsSpaceChar).reverse.dropWhile pyIsSpaceChar).reverse)

/-- Does the character list `pat` occur at the head of `s`? -/
def listStartsWith : List Char → List Char → Bool
  | [], _ => true
  | _ :: _, [] => false
  | a :: as, b :: bs => a == b && listStartsWith as bs

/-- Does the character list `pat` occur anywhere inside `s`?  Model of the
Python substring test `pat in s`. -/
def listHasSub (pat : List Char) : List Char → Bool
  | [] => listStartsWith pat []
  | c :: rest => listStartsWith pat (c :: rest) || listHasSub pat rest

/-- Model of the Python substring test `needle in hay` on strings. -/
def strHasSub (needle hay : String) : Bool :=
  listHasSub needle.data hay.data

/-- Model of Python `any(word in t for word in kws)`. -/
def anyKeyword (kws : List String) (t : String) : Bool :=
  kws.any (fun w => strHasSub w t)

/-- Number of words of Python `s.split()` (maximal runs of non-whitespace). -/
def countWordsAux : List Char → Bool → Nat
  | [], _ => 0
  | c :: rest, inWord =>
    if pyIsSpaceChar c then countWordsAux rest false
    else (if inWord then 0 else 1) + countWordsAux rest true

/-- Model of Python `len(s.split())`. -/
def pyWordCount (s : String) : Nat :=
  countWordsAux s.data false

/-! ### Intent classifier
Keyword cascade of `_generate_intelligent_mock_decision` (src/api/models/agent.py,
lines 133-164) followed, when no branch matches, by the cascade of
`_generate_generic_decision` (lines 243-291).  The category is which branch of
the dispatch is taken; the first matching category wins. -/

/-- Decision categories of the two-level keyword cascade in src/api/models/agent.py. -/
inductive TaskIntent where
  | database
  | programming
  | business
  | investment
  | career
  | housing
  | comparison
  | yesNo
  | optimization
  | planning
  | riskAssessment
  | resourceAllocation
  | problemSolving
  | learning
  | lifestyleDecision
  | creative
  | contextual
deriving DecidableEq

/-- Keyword table of the cascade, in source order (agent.py lines 140-161 for the
primary categories and lines 251-288 for the generic sub-cascade). -/
def categoryKeywords : TaskIntent → List String
  | .database => ["database", "db", "storage", "data"]
  | .programming => ["programming", "language", "learn", "javascript", "python"]
  | .business => ["launch", "product", "business", "market"]
  | .investment => ["invest", "stock", "money", "financial"]
  | .career => ["job", "career", "offer", "work"]
  | .housing => ["house", "rent", "buy", "home"]
  | .comparison => ["vs", "versus", "compare", "choose", "select", "between"]
  | .yesNo => ["should i", "should we", "is it worth", "can i", "will it"]
  | .optimization => ["optimize", "improve", "maximize", "minimize", "best way", "most efficient"]
  | .planning => ["plan", "strategy", "approach", "roadmap", "timeline", "schedule"]
  | .riskAssessment => ["risk", "safe", "secure", "danger", "threat", "assess"]
  | .resourceAllocation => ["budget", "allocate", "distribute", "assign", "resource"]
  | .problemSolving => ["problem", "issue", "solve", "fix", "troubleshoot", "debug"]
  | .learning => ["learn", "study", "course", "skill", "education", "training"]
  | .lifestyleDecision => ["lifestyle", "personal", "health", "fitness", "diet", "habit"]
  | .creative => ["creative", "design", "art", "content", "marketing", "brand"]
  | .contextual => []

/-- The classifier: lower-case the task text and walk the fixed cascade;
first matching category wins; the final fallback is the contextual leaf.
Faithful to the dispatch order of `_generate_intelligent_mock_decision` and
`_generate_generic_decision` in src/api/models/agent.py. -/
def classify (task_description : String) : TaskIntent :=
  let t := pyLower task_description
  if anyKeyword (categoryKeywords .database) t then .database
  else if anyKeyword (categoryKeywords .programming) t then .programming
  else if anyKeyword (categoryKeywords .business) t then .business
  else if anyKeyword (categoryKeywords .investment) t then .investment
  else if anyKeyword (categoryKeywords .career) t then .career
  else if anyKeyword (categoryKeywords .housing) t then .housing
  else if anyKeyword (categoryKeywords .comparison) t then .comparison
  else if anyKeyword (categoryKeywords .yesNo) t then .yesNo
  else if anyKeyword (categoryKeywords .optimization) t then .optimization
  else if anyKeyword (categoryKeywords .planning) t then .planning
  else if anyKeyword (categoryKeywords .riskAssessment) t then .riskAssessment
  else if anyKeyword (categoryKeywords .resourceAllocation) t then .resourceAllocation
  else if anyKeyword (categoryKeywords .problemSolving) t then .problemSolving
  else if anyKeyword (categoryKeywords .learning) t then .learning
  else if anyKeyword (categoryKeywords .lifestyleDecision) t then .lifestyleDecision
  else if anyKeyword (categoryKeywords .creative) t then .creative
  else .contextual

example : classify "Which database should I use" = TaskIntent.database := by decide
example : classify "learn" = TaskIntent.programming := by decide
example : classify "marketing" = TaskIntent.business := by decide
example : classify "art" = TaskIntent.creative := by decide
example : classify "" = TaskIntent.contextual := by decide

/-! ### Deterministic fallback synthesizer
Embedding of `create_sophisticated_fallback` (src/api/main.py, lines 206-308). -/

/-- One alternative approach of a decision pattern (main.py template literals). -/
structure AltOption where
  option : String
  description : String
  pros : List String
  cons : List String
deriving DecidableEq

/-- The fixed template triple selected by the keyword cascade of
`create_sophisticated_fallback` (main.py lines 221-275). -/
structure PatternData where
  recommendation : String
  reasoning : String
  alternatives : List AltOption
deriving DecidableEq

/-- Keyword cascade over `task.lower()` choosing the decision pattern
(main.py lines 219-275).  The default branch interpolates the raw `task`
text (original casing) into its recommendation, exactly as the f-string in
line 269 of the source does. -/
def fallbackPattern (task : String) : PatternData :=
  let task_lower := pyLower task
  if anyKeyword ["strategy", "plan", "approach", "direction", "roadmap"] task_lower then
    { recommendation := "Implement a phased strategic approach with clear milestones, stakeholder alignment, and continuous monitoring"
      reasoning := "Strategic initiatives require systematic planning with measurable outcomes, risk mitigation, and adaptive execution to ensure successful implementation and value delivery"
      alternatives := [
        { option := "Agile Strategic Implementation", description := "Break strategy into iterative phases with regular reviews",
          pros := ["Flexible adaptation", "Quick feedback", "Risk mitigation"], cons := ["Requires coordination", "Potential scope creep"] },
        { option := "Comprehensive Rollout", description := "Execute complete strategy simultaneously",
          pros := ["Unified vision", "Clear timeline", "Complete solution"], cons := ["Higher risk", "Resource intensive", "Less adaptable"] }] }
  else if anyKeyword ["analyze", "evaluate", "assess", "review", "study"] task_lower then
    { recommendation := "Conduct comprehensive multi-dimensional analysis using both quantitative metrics and qualitative insights"
      reasoning := "Effective analysis requires systematic evaluation of all relevant factors, data validation, stakeholder perspectives, and evidence-based conclusions to support informed decision-making"
      alternatives := [
        { option := "Data-Driven Analysis", description := "Focus on quantitative metrics and statistical models",
          pros := ["Objective results", "Measurable outcomes", "Reproducible"], cons := ["May miss context", "Requires quality data", "Limited qualitative insights"] },
        { option := "Holistic Assessment", description := "Combine quantitative data with expert opinions and contextual factors",
          pros := ["Comprehensive view", "Expert insights", "Contextual understanding"], cons := ["More subjective", "Time consuming", "Complex synthesis"] }] }
  else if anyKeyword ["optimize", "improve", "enhance", "efficiency", "performance"] task_lower then
    { recommendation := "Apply systematic optimization methodology with baseline measurement, iterative improvement, and performance monitoring"
      reasoning := "Optimization requires clear performance metrics, root cause analysis, evidence-based improvements, and continuous monitoring to achieve sustainable enhancements and measurable value"
      alternatives := [
        { option := "Incremental Optimization", description := "Make small, continuous improvements over time",
          pros := ["Low risk", "Steady progress", "Manageable changes"], cons := ["Slower results", "May miss breakthroughs", "Incremental mindset"] },
        { option := "Transformational Change", description := "Implement significant systemic improvements",
          pros := ["Major impact", "Competitive advantage", "Breakthrough potential"], cons := ["High risk", "Disruption", "Resource intensive"] }] }
  else if anyKeyword ["invest", "financial", "budget", "cost", "roi", "revenue"] task_lower then
    { recommendation := "Implement rigorous financial analysis with risk-adjusted projections, scenario planning, and value optimization"
      reasoning := "Financial decisions require comprehensive evaluation of costs, benefits, risks, market conditions, and strategic alignment to maximize value while managing downside risks"
      alternatives := [
        { option := "Conservative Investment", description := "Lower risk approach with steady returns",
          pros := ["Capital preservation", "Predictable outcomes", "Lower volatility"], cons := ["Limited upside", "Inflation risk", "Opportunity cost"] },
        { option := "Growth Investment", description := "Higher risk approach targeting superior returns",
          pros := ["Higher potential returns", "Growth opportunity", "Market outperformance"], cons := ["Higher volatility", "Potential losses", "Requires expertise"] }] }
  else if anyKeyword ["technology", "digital", "automation", "ai", "software", "system"] task_lower then
    { recommendation := "Adopt a technology implementation strategy with pilot testing, stakeholder training, and gradual scaling"
      reasoning := "Technology adoption requires careful planning, user acceptance, integration considerations, and change management to ensure successful deployment and value realization"
      alternatives := [
        { option := "Pilot Implementation", description := "Start with small-scale test before full deployment",
          pros := ["Risk mitigation", "Learning opportunity", "Stakeholder buy-in"], cons := ["Delayed benefits", "Limited scope", "May not reveal all issues"] },
        { option := "Full Deployment", description := "Implement technology across entire organization",
          pros := ["Immediate benefits", "Economies of scale", "Consistent experience"], cons := ["Higher risk", "Complex coordination", "Resistance to change"] }] }
  else
    { recommendation := "Develop a structured, evidence-based approach to \x27" ++ task ++ "\x27 with clear objectives, success criteria, and implementation plan"
      reasoning := "Complex challenges require systematic methodology combining thorough analysis, stakeholder engagement, risk management, and adaptive execution to achieve optimal outcomes"
      alternatives := [
        { option := "Research-First Approach", description := "Conduct thorough research and planning before implementation",
          pros := ["Well-informed decisions", "Risk mitigation", "Strategic alignment"], cons := ["Time intensive", "Analysis paralysis risk", "Delayed action"] },
        { option := "Action-Oriented Approach", description := "Begin implementation with concurrent learning and adaptation",
          pros := ["Quick results", "Learning by doing", "Momentum building"], cons := ["Higher risk", "Potential rework", "Resource inefficiency"] }] }

/-- The fixed universal risk-factor list (main.py lines 278-287). -/
def riskFactorsUniversal : List String := [
  "Resource allocation and availability constraints",
  "Stakeholder alignment and change management challenges",
  "Implementation timeline and dependency management",
  "Market conditions and external environmental factors",
  "Technology infrastructure and capability requirements",
  "Regulatory compliance and legal considerations",
  "Budget constraints and financial sustainability",
  "Organizational readiness and cultural factors"]

/-- The priority-keyed confidence table `{"high": 85, "medium": 75, "low": 65}`
(main.py line 213).  The Python dict lookup raises `KeyError` on any other
priority string, modelled by `none`. -/
def confidenceBaseTable (priority : String) : Option Int :=
  if priority = "high" then some 85
  else if priority = "medium" then some 75
  else if priority = "low" then some 65
  else none

/-- Confidence of the categorical variant (main.py lines 213-216):
base from the table, adjusted by `(seed_hash % 21) - 10`, clamped to [60, 95]. -/
def fallbackConfidence (seed_hash : Nat) (priority : String) : Option Int :=
  (confidenceBaseTable priority).map (fun confidence_base =>
    let confidence_variation : Int := ((seed_hash % 21 : Nat) : Int) - 10
    min 95 (max 60 (confidence_base + confidence_variation)))

/-- The inner `while idx in selected_indices` loop of the risk-factor selection
(main.py lines 295-297), with explicit fuel: evolve `temp_hash` by
`temp_hash * 31 + 17` until the derived index is fresh.  Returns the fresh
index together with the evolved `temp_hash`; `none` when the fuel runs out
with the index still already chosen. -/
def evolveLoop (selected_indices : List Nat) : Nat → Nat → Option (Nat × Nat)
  | temp_hash, 0 =>
    if temp_hash % riskFactorsUniversal.length ∈ selected_indices then none
    else some (temp_hash % riskFactorsUniversal.length, temp_hash)
  | temp_hash, fuel + 1 =>
    if temp_hash % riskFactorsUniversal.length ∈ selected_indices then
      evolveLoop selected_indices (temp_hash * 31 + 17) fuel
    else some (temp_hash % riskFactorsUniversal.length, temp_hash)

/-- The outer `for _ in range(num_risks)` loop of the risk-factor selection
(main.py lines 293-298): repeatedly pick a fresh index and append it. -/
def selectLoop (fuel : Nat) : Nat → List Nat → Nat → Option (List Nat)
  | 0, selected_indices, _ => some selected_indices
  | n + 1, selected_indices, temp_hash =>
    match evolveLoop selected_indices temp_hash fuel with
    | none => none
    | some (idx, temp2) => selectLoop fuel n (selected_indices ++ [idx]) temp2

/-- Deterministic selection of `3 + (seed_hash % 2)` risk-factor indices
(main.py lines 290-298). -/
def selectRiskIndices (seed_hash : Nat) (fuel : Nat) : Option (List Nat) :=
  selectLoop fuel (3 + seed_hash % 2) [] seed_hash

/-- Insertion of a number into a sorted list, ascending. -/
def insertSorted (x : Nat) : List Nat → List Nat
  | [] => [x]
  | y :: ys => if x ≤ y then x :: y :: ys else y :: insertSorted x ys

/-- Model of Python `sorted` on a list of numbers. -/
def sortNat (l : List Nat) : List Nat :=
  l.foldr insertSorted []

/-- Error outcomes of the embedded fallback: a Python `KeyError` from the
priority-table lookup, or exhaustion of the fuel bounding the unbounded
`while` loop of the risk selection. -/
inductive PyError where
  | keyError
  | outOfFuel
deriving DecidableEq

/-- The record `create_sophisticated_fallback` builds at main.py lines 302-308. -/
structure FallbackResult where
  recommendation : String
  reasoning : String
  confidence : Int
  alternatives : List AltOption
  risk_factors : List String
deriving DecidableEq

/-- The digest input string `f"{task.lower().strip()}{context.lower().strip()}{priority}"`
(main.py line 210). -/
def digestInput (task context priority : String) : String :=
  pyStrip (pyLower task) ++ pyStrip (pyLower context) ++ priority

/-- Embedding of `create_sophisticated_fallback` (main.py lines 206-308).
`seedHashFn` stands for `int(hashlib.md5(input_str.encode()).hexdigest()[:8], 16)`;
`fuel` bounds the inner `while` loop of the risk selection. -/
def create_sophisticated_fallback (seedHashFn : String → Nat) (fuel : Nat)
    (task context priority : String) : Except PyError FallbackResult :=
  let seed_hash := seedHashFn (digestInput task context priority)
  match fallbackConfidence seed_hash priority with
  | none => .error .keyError
  | some confidence =>
    let pattern := fallbackPattern task
    match selectRiskIndices seed_hash fuel with
    | none => .error .outOfFuel
    | some selected_indices =>
      let selected_risks := (sortNat selected_indices).map
        (fun i => riskFactorsUniversal.getD i "")
      .ok { recommendation := pattern.recommendation
            reasoning := pattern.reasoning
            confidence := confidence
            alternatives := pattern.alternatives
            risk_factors := selected_risks }

/-- Does the embedded fallback return a well-formed record (as opposed to
raising or diverging)? -/
def fallbackReturns : Except PyError FallbackResult → Bool
  | .ok _ => true
  | .error _ => false


/-! ### Feature importance calculator and confidence estimator
Embedding of `XAIExplainer._calculate_feature_importance`,
`_calculate_single_feature_importance` and `_estimate_confidence`
(src/api/xai/explainer.py, lines 85-136 and 183-211). -/

/-- A JSON-style context value.  Collections (`list`/`dict`) are modelled by
their size, which is all the importance calculator inspects (`len(value)` and
truthiness). -/
inductive PyVal where
  | num (q : ℚ)
  | str (s : String)
  | coll (n : Nat)
  | bool (b : Bool)
  | other
deriving DecidableEq

/-- A Python dict context, modelled as an association list with the dict's
insertion order; keys are unique. -/
abbrev ContextMap := List (String × PyVal)

/-- Python `isinstance(value, (int, float))`.  Note `bool` is a subclass of
`int` in Python, so boolean values satisfy this test. -/
def pyIsInstanceIntFloat : PyVal → Bool
  | .num _ => true
  | .bool _ => true
  | _ => false

/-- Python `float(value)` on a value that passed `isinstance(value, (int, float))`. -/
def pyFloatOf : PyVal → ℚ
  | .num q => q
  | .bool b => if b then 1 else 0
  | _ => 0

/-- Emphasis marker words boosting string values (explainer.py line 125). -/
def emphasisWords : List String := ["important", "critical", "key", "main"]

/-- The `value_weight` chain of `_calculate_single_feature_importance`
(explainer.py lines 117-134).  The `isinstance(value, (int, float))` test
comes first and captures booleans, so the later `isinstance(value, bool)`
branch (0.8 / 0.3) is unreachable; it is kept here exactly as in the source. -/
def valueWeight (value : PyVal) : ℚ :=
  if pyIsInstanceIntFloat value then
    if pyFloatOf value ≠ 0 then min (|pyFloatOf value| / 100) 1 else 1/10
  else
    match value with
    | .str s =>
      let w : ℚ := if s.length ≠ 0 then min ((s.length : ℚ) / 50) 1 else 1/10
      if anyKeyword emphasisWords (pyLower s) then w * (3/2) else w
    | .coll n => if n ≠ 0 then min ((n : ℚ) / 10) 1 else 1/10
    | .bool b => if b then 4/5 else 3/10
    | _ => 1/2

/-- Embedding of `_calculate_single_feature_importance` (explainer.py lines
108-136): `base_importance + min(key_weight + value_weight, 1.0)` with
`base_importance = 0.1` and `key_weight = len(key) / 20.0`. -/
def calculate_single_feature_importance (key : String) (value : PyVal) : ℚ :=
  1/10 + min ((key.length : ℚ) / 20 + valueWeight value) 1

/-- Floor of a rational as an integer, computed from the reduced fraction by
Euclidean division (the divisor `q.den` is positive, so this is the floor). -/
def qfloor (q : ℚ) : ℤ :=
  q.num / (q.den : ℤ)

/-- Round-half-to-even to an integer, as Python `round` behaves on ties. -/
def roundHalfEven (q : ℚ) : ℤ :=
  if q - qfloor q < 1/2 then qfloor q
  else if (1/2 : ℚ) < q - qfloor q then qfloor q + 1
  else if qfloor q % 2 = 0 then qfloor q else qfloor q + 1

/-- Model of Python `round(x, 3)` on exact rationals. -/
def pyRound3 (q : ℚ) : ℚ :=
  (roundHalfEven (q * 1000) : ℚ) / 1000

/-- The per-key rounded raw scores `feature_importance[key] = round(importance, 3)`
built by the loop of `_calculate_feature_importance` (explainer.py lines 92-96). -/
def rawImportances (context : ContextMap) : List (String × ℚ) :=
  context.map (fun kv => (kv.1, pyRound3 (calculate_single_feature_importance kv.1 kv.2)))

/-- `total_importance = sum(feature_importance.values())` (explainer.py line 99). -/
def totalImportance (context : ContextMap) : ℚ :=
  ((rawImportances context).map Prod.snd).sum

/-- Embedding of `_calculate_feature_importance` (explainer.py lines 85-106):
empty context short-circuits to the empty mapping; otherwise the rounded raw
scores are normalized by their total (when positive) with each share rounded
to 3 decimals again. -/
def calculate_feature_importance (context : ContextMap) : List (String × ℚ) :=
  if context = [] then []
  else if 0 < totalImportance context then
    (rawImportances context).map (fun kv => (kv.1, pyRound3 (kv.2 / totalImportance context)))
  else
    rawImportances context

/-- Embedding of `_estimate_confidence` (explainer.py lines 183-211). -/
def estimate_confidence (task_description : String) (context : ContextMap)
    (decision : String) : ℚ :=
  let task_words := pyWordCount task_description
  let clarity_factor : ℚ := min ((task_words : ℚ) / 20) 1
  let context_factor : ℚ :=
    if context.length ≠ 0 then min ((context.length : ℚ) / 5) 1 else 3/10
  let decision_words := pyWordCount decision
  let specificity_factor : ℚ := min ((decision_words : ℚ) / 15) 1
  let base_confidence : ℚ := 2/5
  let factor_weight : ℚ := (clarity_factor + context_factor + specificity_factor) / 3
  min (base_confidence + factor_weight * (1/2)) (19/20)

/-! ### Definitions written from the wording of the specification,
for comparison against the embedded source. -/

/-- Modelled from the spec: the claimed per-feature score for a boolean value,
with `value_factor = 0.8 if true else 0.3` combined with the 0.1 base floor
and the key-name-length factor. -/
def claimBoolImportance (key : String) (b : Bool) : ℚ :=
  1/10 + min ((key.length : ℚ) / 20 + (if b then 4/5 else 3/10)) 1

/-- Modelled from the spec: categorical confidence is the priority-table base
adjusted by `(digest mod 21) - 10` and clamped to [60, 95]. -/
def categoricalConfidenceSpec (base : Int) (digest : Nat) : Int :=
  min 95 (max 60 (base + ((digest % 21 : Nat) : Int) - 10))

/-- Modelled from the spec: narrative confidence is `0.4 + 0.5 * mean` of the
three bounded factors, capped at 0.95. -/
def narrativeConfidenceSpec (task_description : String) (context : ContextMap)
    (decision : String) : ℚ :=
  min (2/5 + (1/2) *
      ((min ((pyWordCount task_description : ℚ) / 20) 1
        + (if context.length ≠ 0 then min ((context.length : ℚ) / 5) 1 else 3/10)
        + min ((pyWordCount decision : ℚ) / 15) 1) / 3)) (19/20)

/-! ### Basic facts about the rational floor and rounding -/

theorem qfloor_le (q : ℚ) : (qfloor q : ℚ) ≤ q := by
  have hbz : ((q.den : ℤ)) ≠ 0 := by exact_mod_cast q.den_nz
  have hbq : (0 : ℚ) < (q.den : ℚ) := by
    exact_mod_cast Nat.pos_of_ne_zero q.den_nz
  have key := Int.ediv_add_emod q.num (q.den : ℤ)
  have h2 : 0 ≤ q.num % (q.den : ℤ) := Int.emod_nonneg q.num hbz
  have hZ : qfloor q * (q.den : ℤ) ≤ q.num := by
    unfold qfloor; linarith
  have hQ : ((qfloor q : ℚ)) * (q.den : ℚ) ≤ (q.num : ℚ) := by exact_mod_cast hZ
  have step : ((qfloor q : ℚ)) * (q.den : ℚ) / (q.den : ℚ) ≤ (q.num : ℚ) / (q.den : ℚ) :=
    (div_le_div_right hbq).mpr hQ
  rw [mul_div_cancel_right₀ _ (ne_of_gt hbq)] at step
  rw [Rat.num_div_den q] at step
  exact step

theorem lt_qfloor_add_one (q : ℚ) : q < (qfloor q : ℚ) + 1 := by
  have hbz : ((q.den : ℤ)) ≠ 0 := by exact_mod_cast q.den_nz
  have hbp : (0 : ℤ) < (q.den : ℤ) := by
    exact_mod_cast Nat.pos_of_ne_zero q.den_nz
  have hbq : (0 : ℚ) < (q.den : ℚ) := by
    exact_mod_cast Nat.pos_of_ne_zero q.den_nz
  have key := Int.ediv_add_emod q.num (q.den : ℤ)
  have h2 : q.num % (q.den : ℤ) < (q.den : ℤ) := Int.emod_lt_of_pos q.num hbp
  have hZ : q.num < (qfloor q + 1) * (q.den : ℤ) := by
    unfold qfloor; linarith
  have hQ : (q.num : ℚ) < ((qfloor q : ℚ) + 1) * (q.den : ℚ) := by exact_mod_cast hZ
  have step : (q.num : ℚ) / (q.den : ℚ) < (qfloor q : ℚ) + 1 :=
    (div_lt_iff hbq).mpr hQ
  rw [Rat.num_div_den q] at step
  exact step

theorem qfloor_eq (q : ℚ) (n : ℤ) (h1 : (n : ℚ) ≤ q) (h2 : q < (n : ℚ) + 1) :
    qfloor q = n := by
  have a1 := qfloor_le q
  have a2 := lt_qfloor_add_one q
  have c1 : n < qfloor q + 1 := by exact_mod_cast lt_of_le_of_lt h1 a2
  have c2 : qfloor q < n + 1 := by exact_mod_cast lt_of_le_of_lt a1 h2
  omega

theorem roundHalfEven_sub_le (q : ℚ) : |((roundHalfEven q : ℚ)) - q| ≤ 1/2 := by
  have h1 := qfloor_le q
  have h2 := lt_qfloor_add_one q
  unfold roundHalfEven
  split_ifs with ha hb hc
  · rw [abs_le]; constructor <;> linarith
  · rw [abs_le]; push_cast; constructor <;> linarith
  · rw [abs_le]; constructor <;> linarith
  · rw [abs_le]; push_cast; constructor <;> linarith

theorem roundHalfEven_ge_qfloor (q : ℚ) : qfloor q ≤ roundHalfEven q := by
  unfold roundHalfEven
  split_ifs <;> omega

theorem pyRound3_sub_le (q : ℚ) : |pyRound3 q - q| ≤ 1/2000 := by
  have h := roundHalfEven_sub_le (q * 1000)
  unfold pyRound3
  have eq1 : (roundHalfEven (q * 1000) : ℚ) / 1000 - q
      = ((roundHalfEven (q * 1000) : ℚ) - q * 1000) / 1000 := by ring
  rw [eq1, abs_div]
  have : |(1000 : ℚ)| = 1000 := by norm_num
  rw [this]
  linarith

theorem pyRound3_ge_tenth {q : ℚ} (h : 1/10 ≤ q) : 1/10 ≤ pyRound3 q := by
  have hfl : (100 : ℤ) ≤ qfloor (q * 1000) := by
    have h2 := lt_qfloor_add_one (q * 1000)
    have : (100 : ℚ) ≤ q * 1000 := by linarith
    have h3 : (100 : ℚ) < (qfloor (q * 1000) : ℚ) + 1 := lt_of_le_of_lt this h2
    have h4 : (100 : ℤ) < qfloor (q * 1000) + 1 := by exact_mod_cast h3
    omega
  have hr : (100 : ℤ) ≤ roundHalfEven (q * 1000) :=
    le_trans hfl (roundHalfEven_ge_qfloor _)
  have hrq : (100 : ℚ) ≤ (roundHalfEven (q * 1000) : ℚ) := by exact_mod_cast hr
  unfold pyRound3
  linarith

theorem pyRound3_eq_down (q : ℚ) (n : ℤ) (h1 : (n : ℚ) ≤ q * 1000)
    (h2 : q * 1000 - (n : ℚ) < 1/2) : pyRound3 q = (n : ℚ) / 1000 := by
  have hf : qfloor (q * 1000) = n := qfloor_eq _ n h1 (by linarith)
  unfold pyRound3 roundHalfEven
  rw [hf, if_pos h2]

example : pyRound3 (1/3) = 333/1000 := by
  rw [pyRound3_eq_down (1/3) 333 (by norm_num) (by norm_num)]
  norm_num

/-! ### Divergence of the risk-factor selection loop
The digest evolution `temp_hash = temp_hash * 31 + 17` has period 2 modulo 8
(`h` maps to `(1 - h) mod 8` and back), so once two indices have been chosen
the inner `while` loop can only ever revisit those same two indices. -/

theorem selectLoop_succ (fuel n : Nat) (sel : List Nat) (temp : Nat) :
    selectLoop fuel (n + 1) sel temp =
      match evolveLoop sel temp fuel with
      | none => none
      | some (idx, temp2) => selectLoop fuel n (sel ++ [idx]) temp2 := rfl

theorem evolveLoop_of_fresh (sel : List Nat) (temp fuel : Nat)
    (h : temp % riskFactorsUniversal.length ∉ sel) :
    evolveLoop sel temp fuel = some (temp % riskFactorsUniversal.length, temp) := by
  cases fuel <;> simp [evolveLoop, h]

theorem evolveLoop_stuck (sel : List Nat) :
    ∀ (fuel temp : Nat), temp % riskFactorsUniversal.length ∈ sel →
      (temp * 31 + 17) % riskFactorsUniversal.length ∈ sel →
      evolveLoop sel temp fuel = none := by
  intro fuel
  induction fuel with
  | zero =>
    intro temp h1 _
    simp [evolveLoop, h1]
  | succ f ih =>
    intro temp h1 h2
    have hlen : riskFactorsUniversal.length = 8 := rfl
    have hper : ((temp * 31 + 17) * 31 + 17) % riskFactorsUniversal.length
        = temp % riskFactorsUniversal.length := by
      have hexp : (temp * 31 + 17) * 31 + 17 = temp * 961 + 544 := by ring
      rw [hlen, hexp]
      omega
    have h3 : ((temp * 31 + 17) * 31 + 17) % riskFactorsUniversal.length ∈ sel := by
      rw [hper]; exact h1
    simp only [evolveLoop, if_pos h1]
    exact ih (temp * 31 + 17) h2 h3

/-- The risk-factor index selection of main.py lines 290-298 never completes:
the first two iterations choose the two indices of the period-2 orbit of the
digest evolution, and the third iteration then loops forever. -/
theorem selectRiskIndices_none (seed fuel : Nat) : selectRiskIndices seed fuel = none := by
  have hlen : riskFactorsUniversal.length = 8 := rfl
  have hne : (seed * 31 + 17) % riskFactorsUniversal.length
      ≠ seed % riskFactorsUniversal.length := by
    rw [hlen]; omega
  have hper : ((seed * 31 + 17) * 31 + 17) % riskFactorsUniversal.length
      = seed % riskFactorsUniversal.length := by
    have hexp : (seed * 31 + 17) * 31 + 17 = seed * 961 + 544 := by ring
    rw [hlen, hexp]; omega
  unfold selectRiskIndices
  have hsplit : 3 + seed % 2 = (seed % 2 + 1 + 1) + 1 := by omega
  rw [hsplit]
  -- iteration 1: index seed % 8 is fresh
  rw [selectLoop_succ, evolveLoop_of_fresh [] seed fuel (by simp)]
  show selectLoop fuel (seed % 2 + 1 + 1) [seed % riskFactorsUniversal.length] seed = none
  rw [selectLoop_succ]
  -- iteration 2: the index recomputed from the unchanged temp_hash collides once
  cases fuel with
  | zero =>
    rw [show evolveLoop [seed % riskFactorsUniversal.length] seed 0 = none by
      simp [evolveLoop]]
  | succ f =>
    have e2a : evolveLoop [seed % riskFactorsUniversal.length] seed (f + 1)
        = evolveLoop [seed % riskFactorsUniversal.length] (seed * 31 + 17) f := by
      simp [evolveLoop]
    have e2b : evolveLoop [seed % riskFactorsUniversal.length] (seed * 31 + 17) f
        = some ((seed * 31 + 17) % riskFactorsUniversal.length, seed * 31 + 17) :=
      evolveLoop_of_fresh _ _ f (by simp [hne])
    rw [e2a, e2b]
    show selectLoop (f + 1) (seed % 2 + 1)
      ([seed % riskFactorsUniversal.length]
        ++ [(seed * 31 + 17) % riskFactorsUniversal.length]) (seed * 31 + 17) = none
    -- iteration 3: both orbit indices are already selected, the while loop spins
    rw [selectLoop_succ]
    rw [show evolveLoop
        ([seed % riskFactorsUniversal.length]
          ++ [(seed * 31 + 17) % riskFactorsUniversal.length]) (seed * 31 + 17) (f + 1)
        = none from
      evolveLoop_stuck _ (f + 1) (seed * 31 + 17) (by simp) (by simp [hper])]

/-! ### Top-level behaviour of the embedded fallback -/

theorem fallbackConfidence_eq_none (seed : Nat) (priority : String)
    (h : confidenceBaseTable priority = none) :
    fallbackConfidence seed priority = none := by
  unfold fallbackConfidence
  rw [h]
  rfl

theorem fallbackConfidence_eq_some (seed : Nat) (priority : String) (b : Int)
    (h : confidenceBaseTable priority = some b) :
    fallbackConfidence seed priority
      = some (min 95 (max 60 (b + (((seed % 21 : Nat) : Int) - 10)))) := by
  unfold fallbackConfidence
  rw [h]
  rfl

theorem create_fallback_keyError (seedHashFn : String → Nat) (fuel : Nat)
    (task context priority : String) (h : confidenceBaseTable priority = none) :
    create_sophisticated_fallback seedHashFn fuel task context priority
      = .error .keyError := by
  have hc := fallbackConfidence_eq_none
    (seedHashFn (digestInput task context priority)) priority h
  simp only [create_sophisticated_fallback, hc]

theorem create_fallback_outOfFuel (seedHashFn : String → Nat) (fuel : Nat)
    (task context priority : String) (b : Int)
    (h : confidenceBaseTable priority = some b) :
    create_sophisticated_fallback seedHashFn fuel task context priority
      = .error .outOfFuel := by
  have hc := fallbackConfidence_eq_some
    (seedHashFn (digestInput task context priority)) priority b h
  simp only [create_sophisticated_fallback, hc, selectRiskIndices_none]

theorem create_fallback_never_ok (seedHashFn : String → Nat) (fuel : Nat)
    (task context priority : String) :
    fallbackReturns (create_sophisticated_fallback seedHashFn fuel task context priority)
      = false := by
  cases h : confidenceBaseTable priority with
  | none => rw [create_fallback_keyError seedHashFn fuel task context priority h]; rfl
  | some b => rw [create_fallback_outOfFuel seedHashFn fuel task context priority b h]; rfl

/-! ### Positivity and normalization facts for the feature importance calculator -/

theorem valueWeight_nonneg (v : PyVal) : 0 ≤ valueWeight v := by
  cases v <;>
    simp only [valueWeight, pyIsInstanceIntFloat, pyFloatOf] <;>
    split_ifs <;>
    positivity

theorem single_importance_ge (key : String) (v : PyVal) :
    1/10 ≤ calculate_single_feature_importance key v := by
  unfold calculate_single_feature_importance
  have h1 : (0:ℚ) ≤ (key.length : ℚ) / 20 := by positivity
  have h2 := valueWeight_nonneg v
  have h3 : (0:ℚ) ≤ min ((key.length : ℚ) / 20 + valueWeight v) 1 :=
    le_min (by linarith) (by norm_num)
  linarith

theorem rawImportances_ge (context : ContextMap) :
    ∀ kv ∈ rawImportances context, 1/10 ≤ kv.2 := by
  intro kv hkv
  unfold rawImportances at hkv
  simp only [List.mem_map] at hkv
  obtain ⟨ab, _, rfl⟩ := hkv
  exact pyRound3_ge_tenth (single_importance_ge ab.1 ab.2)

theorem listSumNonneg (l : List ℚ) (h : ∀ x ∈ l, 0 ≤ x) : 0 ≤ l.sum := by
  induction l with
  | nil => simp
  | cons a t ih =>
    simp only [List.sum_cons]
    have ha := h a (by simp)
    have ht := ih (fun x hx => h x (by simp [hx]))
    linarith

theorem listSumPos (l : List ℚ) (h : ∀ x ∈ l, 1/10 ≤ x) (hne : l ≠ []) : 0 < l.sum := by
  cases l with
  | nil => exact absurd rfl hne
  | cons a t =>
    simp only [List.sum_cons]
    have ha := h a (by simp)
    have ht := listSumNonneg t (fun x hx => le_trans (by norm_num) (h x (by simp [hx])))
    linarith

theorem totalImportance_pos (context : ContextMap) (h : context ≠ []) :
    0 < totalImportance context := by
  unfold totalImportance
  apply listSumPos
  · intro x hx
    simp only [List.mem_map] at hx
    obtain ⟨kv, hkv, rfl⟩ := hx
    exact rawImportances_ge context kv hkv
  · simp only [rawImportances, ne_eq, List.map_eq_nil_iff]
    exact h

theorem calculate_feature_importance_normalized (context : ContextMap) (h : context ≠ []) :
    calculate_feature_importance context
      = (rawImportances context).map
          (fun kv => (kv.1, pyRound3 (kv.2 / totalImportance context))) := by
  unfold calculate_feature_importance
  rw [if_neg h, if_pos (totalImportance_pos context h)]

theorem listSumDiv (l : List ℚ) (c : ℚ) : (l.map (fun x => x / c)).sum = l.sum / c := by
  induction l with
  | nil => simp
  | cons a t ih => simp [ih, add_div]

theorem listRoundSumBound (l : List ℚ) :
    |(l.map pyRound3).sum - l.sum| ≤ (l.length : ℚ) / 2000 := by
  induction l with
  | nil => simp
  | cons a t ih =>
    simp only [List.map_cons, List.sum_cons, List.length_cons]
    have h1 := pyRound3_sub_le a
    have key : pyRound3 a + (t.map pyRound3).sum - (a + t.sum)
        = (pyRound3 a - a) + ((t.map pyRound3).sum - t.sum) := by ring
    rw [key]
    have tri := abs_add (pyRound3 a - a) ((t.map pyRound3).sum - t.sum)
    have hcast : ((t.length + 1 : Nat) : ℚ) = (t.length : ℚ) + 1 := by push_cast; ring
    rw [hcast]
    linarith

theorem featureImportance_sum_bound (context : ContextMap) (h : context ≠ []) :
    |((calculate_feature_importance context).map Prod.snd).sum - 1|
      ≤ (context.length : ℚ) / 2000 := by
  rw [calculate_feature_importance_normalized context h]
  have hT := totalImportance_pos context h
  have e1 : ((rawImportances context).map
        (fun kv => (kv.1, pyRound3 (kv.2 / totalImportance context)))).map Prod.snd
      = (((rawImportances context).map Prod.snd).map
          (fun v => v / totalImportance context)).map pyRound3 := by
    rw [List.map_map, List.map_map, List.map_map]
    rfl
  rw [e1]
  have e2 : (((rawImportances context).map Prod.snd).map
      (fun v => v / totalImportance context)).sum = 1 := by
    rw [listSumDiv]
    exact div_self (ne_of_gt hT)
  have e3 := listRoundSumBound (((rawImportances context).map Prod.snd).map
      (fun v => v / totalImportance context))
  rw [e2] at e3
  have e4 : ((((rawImportances context).map Prod.snd).map
      (fun v => v / totalImportance context)).length : ℚ) = (context.length : ℚ) := by
    simp [rawImportances]
  rw [e4] at e3
  exact e3

/-! ### Confidence bounds -/

theorem estimate_confidence_eq_spec (task : String) (context : ContextMap) (decision : String) :
    estimate_confidence task context decision = narrativeConfidenceSpec task context decision := by
  simp only [estimate_confidence, narrativeConfidenceSpec]
  congr 1
  ring

theorem estimate_confidence_bounds (task : String) (context : ContextMap) (decision : String) :
    2/5 ≤ estimate_confidence task context decision
      ∧ estimate_confidence task context decision ≤ 19/20 := by
  simp only [estimate_confidence]
  constructor
  · have h1 : (0:ℚ) ≤ min ((pyWordCount task : ℚ) / 20) 1 :=
      le_min (by positivity) (by norm_num)
    have h2 : (0:ℚ) ≤ (if context.length ≠ 0 then min ((context.length : ℚ) / 5) 1 else 3/10) := by
      split_ifs
      · exact le_min (by positivity) (by norm_num)
      · norm_num
    have h3 : (0:ℚ) ≤ min ((pyWordCount decision : ℚ) / 15) 1 :=
      le_min (by positivity) (by norm_num)
    exact le_min (by linarith) (by norm_num)
  · exact min_le_right _ _

theorem fallbackConfidence_spec (seed : Nat) (priority : String) (b : Int)
    (h : confidenceBaseTable priority = some b) :
    fallbackConfidence seed priority = some (categoricalConfidenceSpec b seed) := by
  rw [fallbackConfidence_eq_some seed priority b h]
  unfold categoricalConfidenceSpec
  have e : b + (((seed % 21 : Nat) : Int) - 10) = b + ((seed % 21 : Nat) : Int) - 10 := by ring
  rw [e]

theorem categoricalConfidenceSpec_bounds (b : Int) (seed : Nat) :
    60 ≤ categoricalConfidenceSpec b seed ∧ categoricalConfidenceSpec b seed ≤ 95 := by
  unfold categoricalConfidenceSpec
  constructor
  · exact le_min (by norm_num) (le_max_left _ _)
  · exact min_le_left _ _

/-! ### Concrete evaluations -/

theorem eval_single_num1 (k : String) (hk : k.length = 1) :
    calculate_single_feature_importance k (PyVal.num 1) = 4/25 := by
  simp only [calculate_single_feature_importance, valueWeight, pyIsInstanceIntFloat,
    pyFloatOf, hk]
  norm_num [min_def]

theorem eval_single_bool_true :
    calculate_single_feature_importance "k" (PyVal.bool true) = 4/25 := by
  have hk : ("k" : String).length = 1 := rfl
  simp only [calculate_single_feature_importance, valueWeight, pyIsInstanceIntFloat,
    pyFloatOf, hk]
  norm_num [min_def]

theorem eval_single_bool_false :
    calculate_single_feature_importance "k" (PyVal.bool false) = 1/4 := by
  have hk : ("k" : String).length = 1 := rfl
  simp only [calculate_single_feature_importance, valueWeight, pyIsInstanceIntFloat,
    pyFloatOf, hk]
  norm_num [min_def]

theorem eval_round_sixteenhundredths : pyRound3 (4/25) = 4/25 := by
  rw [pyRound3_eq_down (4/25) 160 (by norm_num) (by norm_num)]
  norm_num

theorem eval_round_third : pyRound3 (1/3) = 333/1000 := by
  rw [pyRound3_eq_down (1/3) 333 (by norm_num) (by norm_num)]
  norm_num

theorem eval_ctx3_sum :
    ((calculate_feature_importance
        [("a", PyVal.num 1), ("b", PyVal.num 1), ("c", PyVal.num 1)]).map Prod.snd).sum
      = 999/1000 := by
  have e1 : calculate_single_feature_importance "a" (PyVal.num 1) = 4/25 :=
    eval_single_num1 "a" rfl
  have e2 : calculate_single_feature_importance "b" (PyVal.num 1) = 4/25 :=
    eval_single_num1 "b" rfl
  have e3 : calculate_single_feature_importance "c" (PyVal.num 1) = 4/25 :=
    eval_single_num1 "c" rfl
  have hraw : rawImportances [("a", PyVal.num 1), ("b", PyVal.num 1), ("c", PyVal.num 1)]
      = [("a", (4:ℚ)/25), ("b", (4:ℚ)/25), ("c", (4:ℚ)/25)] := by
    simp [rawImportances, e1, e2, e3, eval_round_sixteenhundredths]
  have htot : totalImportance [("a", PyVal.num 1), ("b", PyVal.num 1), ("c", PyVal.num 1)]
      = 12/25 := by
    unfold totalImportance
    rw [hraw]
    norm_num
  have hne : ([("a", PyVal.num 1), ("b", PyVal.num 1), ("c", PyVal.num 1)] : ContextMap) ≠ [] := by
    simp
  rw [calculate_feature_importance_normalized _ hne, hraw, htot]
  have hshare : pyRound3 ((4:ℚ)/25 / (12/25)) = 333/1000 := by
    have e : (4:ℚ)/25 / (12/25) = 1/3 := by norm_num
    rw [e]
    exact eval_round_third
  simp only [List.map_cons, List.map_nil, hshare, List.sum_cons, List.sum_nil]
  norm_num

/-! ## Claim theorems -/

/-- Claim C1: the spec asserts that the risk-factor selection loop — take the
digest mod 8 and, on collision, evolve the digest by `digest * 31 + 17` until a
fresh index appears — terminates, making `create_sophisticated_fallback` total.
The code refutes this: the evolution has period 2 modulo 8, so for every hash
function, every fuel bound, and every input whose priority is in the table, the
third selection never finds a fresh index and the function produces no result. -/
theorem C1_fallback_selection_diverges (seedHashFn : String → Nat) (fuel : Nat)
    (task context priority : String)
    (hp : priority = "high" ∨ priority = "medium" ∨ priority = "low") :
    create_sophisticated_fallback seedHashFn fuel task context priority
      = .error .outOfFuel := by
  rcases hp with h | h | h <;> subst h
  · exact create_fallback_outOfFuel _ _ _ _ _ 85 rfl
  · exact create_fallback_outOfFuel _ _ _ _ _ 75 rfl
  · exact create_fallback_outOfFuel _ _ _ _ _ 65 rfl

theorem C1_fallback_selection_diverges_witness :
    create_sophisticated_fallback (fun s => s.length) 1000
      "Should I optimize my database performance?" "" "medium" = .error .outOfFuel :=
  C1_fallback_selection_diverges (fun s => s.length) 1000
    "Should I optimize my database performance?" "" "medium" (Or.inr (Or.inl rfl))

/-- Claim C2: the spec asserts the fallback engine returns a well-formed result
and never raises on valid-shape input, degrading gracefully for priorities
outside the table.  The code refutes this: the dict lookup
`{"high": 85, "medium": 75, "low": 65}[priority]` raises `KeyError` for any
other priority string, and for priorities in the table the engine never
returns at all (the risk-selection loop diverges). -/
theorem C2_fallback_raises_and_never_returns (seedHashFn : String → Nat) (fuel : Nat)
    (task context : String) :
    create_sophisticated_fallback seedHashFn fuel task context "urgent" = .error .keyError
    ∧ ∀ priority, fallbackReturns
        (create_sophisticated_fallback seedHashFn fuel task context priority) = false :=
  ⟨create_fallback_keyError seedHashFn fuel task context "urgent" rfl,
   fun priority => create_fallback_never_ok seedHashFn fuel task context priority⟩

/-- Claim C3: the spec asserts that two calls of the fallback engine with
identical inputs yield identical output in every field.  No call ever yields
an output: at the concrete input (task "test", empty context, priority
"medium") the engine diverges in the risk-selection loop for every fuel bound,
so there are no outputs to compare. -/
theorem C3_fallback_produces_no_output (seedHashFn : String → Nat) (fuel1 fuel2 : Nat) :
    create_sophisticated_fallback seedHashFn fuel1 "test" "" "medium" = .error .outOfFuel
    ∧ create_sophisticated_fallback seedHashFn fuel2 "test" "" "medium" = .error .outOfFuel :=
  ⟨create_fallback_outOfFuel seedHashFn fuel1 "test" "" "medium" 75 rfl,
   create_fallback_outOfFuel seedHashFn fuel2 "test" "" "medium" 75 rfl⟩

/-- Claim C4: the spec describes the risk_factors list of a returned result
(length `3 + digest mod 2`, no duplicates, subset of the 8-entry list, sorted).
There is no input on which `create_sophisticated_fallback` returns: the index
selection itself never completes for any seed and any fuel, so the described
list is never produced. -/
theorem C4_risk_selection_never_completes (seed fuel : Nat) (seedHashFn : String → Nat)
    (task context : String) :
    selectRiskIndices seed fuel = none
    ∧ create_sophisticated_fallback seedHashFn fuel task context "medium"
      = .error .outOfFuel :=
  ⟨selectRiskIndices_none seed fuel,
   create_fallback_outOfFuel seedHashFn fuel task context "medium" 75 rfl⟩

/-- Claim C5, counterexample: for the three-entry context a=1, b=1, c=1 each
normalized share 1/3 is rounded to 0.333, so the values of the returned
feature-importance mapping sum to 0.999, which is not within 1e-9 of 1.0. -/
theorem C5_counterexample :
    ((calculate_feature_importance
        [("a", PyVal.num 1), ("b", PyVal.num 1), ("c", PyVal.num 1)]).map Prod.snd).sum
      = 999/1000
    ∧ ¬ (|((calculate_feature_importance
        [("a", PyVal.num 1), ("b", PyVal.num 1), ("c", PyVal.num 1)]).map Prod.snd).sum - 1|
        ≤ 1/1000000000) := by
  refine ⟨eval_ctx3_sum, ?_⟩
  rw [eval_ctx3_sum]
  have e : (999 : ℚ)/1000 - 1 = -(1/1000) := by norm_num
  rw [e, abs_neg, abs_of_pos (by norm_num : (0:ℚ) < 1/1000)]
  norm_num

/-- Claim C5 as amended: for every non-empty context the values of the
feature-importance mapping sum to 1.0 within n/2000 (n the number of context
entries), the slack coming only from rounding each normalized share to three
decimals; the 1e-9 tolerance claimed by the spec does not hold.  The empty
context yields the empty mapping, not an error. -/
theorem C5_sum_within_rounding (context : ContextMap) (h : context ≠ []) :
    |((calculate_feature_importance context).map Prod.snd).sum - 1|
      ≤ (context.length : ℚ) / 2000
    ∧ calculate_feature_importance [] = [] :=
  ⟨featureImportance_sum_bound context h, rfl⟩

theorem C5_sum_within_rounding_witness :
    |((calculate_feature_importance [("a", PyVal.num 1)]).map Prod.snd).sum - 1|
      ≤ (([("a", PyVal.num 1)] : ContextMap).length : ℚ) / 2000
    ∧ calculate_feature_importance [] = [] :=
  C5_sum_within_rounding [("a", PyVal.num 1)] (by simp)

/-- Claim C6: the spec (matching the unreachable `isinstance(value, bool)`
branch of the source) says a boolean context value contributes
value_factor 0.8 when true and 0.3 when false.  Because Python `bool` is a
subclass of `int`, the numeric branch captures booleans first: True gives
value_factor 0.01 and False gives 0.1, so for key "k" the raw score is 4/25
(not the 19/20 the claimed factors would give) for True and 1/4 (not 9/20)
for False. -/
theorem C6_bool_routed_to_numeric_branch :
    calculate_single_feature_importance "k" (PyVal.bool true) = 4/25
    ∧ calculate_single_feature_importance "k" (PyVal.bool false) = 1/4
    ∧ calculate_single_feature_importance "k" (PyVal.bool true) ≠ claimBoolImportance "k" true
    ∧ calculate_single_feature_importance "k" (PyVal.bool false)
      ≠ claimBoolImportance "k" false := by
  have hk : ("k" : String).length = 1 := rfl
  have hct : claimBoolImportance "k" true = 19/20 := by
    simp only [claimBoolImportance, hk]
    norm_num [min_def]
  have hcf : claimBoolImportance "k" false = 9/20 := by
    simp only [claimBoolImportance, hk]
    norm_num [min_def]
  refine ⟨eval_single_bool_true, eval_single_bool_false, ?_, ?_⟩
  · rw [eval_single_bool_true, hct]; norm_num
  · rw [eval_single_bool_false, hcf]; norm_num

/-- Claim C7, counterexample: "learn" is a keyword of the learning category,
but a task text consisting of only "learn" classifies to the programming
category, whose keyword set is tested earlier in the cascade. -/
theorem C7_counterexample :
    "learn" ∈ categoryKeywords TaskIntent.learning
    ∧ classify "learn" = TaskIntent.programming
    ∧ TaskIntent.programming ≠ TaskIntent.learning :=
  ⟨by decide, by decide, by decide⟩

/-- Claim C7 as amended: for every category and every keyword of that category,
a task text consisting of only that keyword classifies to that category (first
matching category in cascade order winning), except for the two keywords
shadowed by an earlier category: "learn" (learning) is captured by the
programming category, and "marketing" (creative) contains "market" and is
captured by the business category. -/
theorem C7_keyword_coverage (cat : TaskIntent) (kw : String)
    (hk : kw ∈ categoryKeywords cat)
    (h1 : ¬(cat = TaskIntent.learning ∧ kw = "learn"))
    (h2 : ¬(cat = TaskIntent.creative ∧ kw = "marketing")) :
    classify kw = cat := by
  cases cat <;> fin_cases hk <;>
    first
      | decide
      | exact (h1 ⟨rfl, rfl⟩).elim
      | exact (h2 ⟨rfl, rfl⟩).elim

theorem C7_keyword_coverage_witness : classify "database" = TaskIntent.database :=
  C7_keyword_coverage TaskIntent.database "database" (by decide) (by decide) (by decide)

/-- Claim C8: for priorities in the table, the categorical confidence equals
the table base plus `(digest mod 21) - 10` clamped to [60, 95], hence lies in
[60, 95]; and the narrative confidence estimate equals 0.4 plus 0.5 times the
mean of the three bounded factors capped at 0.95, hence lies in [0.4, 0.95]. -/
theorem C8_confidence_bounds (seed : Nat) (priority : String) (b : Int)
    (hb : confidenceBaseTable priority = some b)
    (task decision : String) (context : ContextMap) :
    fallbackConfidence seed priority = some (categoricalConfidenceSpec b seed)
    ∧ 60 ≤ categoricalConfidenceSpec b seed
    ∧ categoricalConfidenceSpec b seed ≤ 95
    ∧ estimate_confidence task context decision = narrativeConfidenceSpec task context decision
    ∧ 2/5 ≤ estimate_confidence task context decision
    ∧ estimate_confidence task context decision ≤ 19/20 :=
  ⟨fallbackConfidence_spec seed priority b hb,
   (categoricalConfidenceSpec_bounds b seed).1,
   (categoricalConfidenceSpec_bounds b seed).2,
   estimate_confidence_eq_spec task context decision,
   (estimate_confidence_bounds task context decision).1,
   (estimate_confidence_bounds task context decision).2⟩

theorem C8_confidence_bounds_witness :
    fallbackConfidence 5 "medium" = some (categoricalConfidenceSpec 75 5)
    ∧ 60 ≤ categoricalConfidenceSpec 75 5
    ∧ categoricalConfidenceSpec 75 5 ≤ 95
    ∧ estimate_confidence "analyze this" [] "go ahead"
      = narrativeConfidenceSpec "analyze this" [] "go ahead"
    ∧ 2/5 ≤ estimate_confidence "analyze this" [] "go ahead"
    ∧ estimate_confidence "analyze this" [] "go ahead" ≤ 19/20 :=
  C8_confidence_bounds 5 "medium" 75 rfl "analyze this" "go ahead" []

/-- Claim C9, counterexample: the tasks "Hello World" and "hello world" differ
only in case and have identical lower-cased content, and indeed their digest
inputs coincide; but the entire output is not identical, because the default
branch of the pattern cascade interpolates the raw task text into the
recommendation, which therefore differs between the two calls. -/
theorem C9_counterexample :
    digestInput "Hello World" "" "medium" = digestInput "hello world" "" "medium"
    ∧ (fallbackPattern "Hello World").recommendation
      ≠ (fallbackPattern "hello world").recommendation :=
  ⟨by decide, by decide⟩

/-- Claim C9 as amended: whenever two calls have the same priority and their
task and context texts agree after lower-casing and stripping, the digest
input string is identical, hence the digest and every digest-derived quantity
(the categorical confidence and the risk-index selection) coincide; the
recommendation text, however, may still differ, because the default template
embeds the raw task text (see the counterexample). -/
theorem C9_digest_normalization (t1 t2 c1 c2 p : String) (seedHashFn : String → Nat)
    (fuel : Nat)
    (ht : pyStrip (pyLower t1) = pyStrip (pyLower t2))
    (hc : pyStrip (pyLower c1) = pyStrip (pyLower c2)) :
    digestInput t1 c1 p = digestInput t2 c2 p
    ∧ seedHashFn (digestInput t1 c1 p) = seedHashFn (digestInput t2 c2 p)
    ∧ fallbackConfidence (seedHashFn (digestInput t1 c1 p)) p
      = fallbackConfidence (seedHashFn (digestInput t2 c2 p)) p
    ∧ selectRiskIndices (seedHashFn (digestInput t1 c1 p)) fuel
      = selectRiskIndices (seedHashFn (digestInput t2 c2 p)) fuel := by
  have hd : digestInput t1 c1 p = digestInput t2 c2 p := by
    unfold digestInput
    rw [ht, hc]
  exact ⟨hd, by rw [hd], by rw [hd], by rw [hd]⟩

theorem C9_digest_normalization_witness :
    digestInput " HELLO " "" "medium" = digestInput "hello" "" "medium"
    ∧ String.length (digestInput " HELLO " "" "medium")
      = String.length (digestInput "hello" "" "medium")
    ∧ fallbackConfidence (String.length (digestInput " HELLO " "" "medium")) "medium"
      = fallbackConfidence (String.length (digestInput "hello" "" "medium")) "medium"
    ∧ selectRiskIndices (String.length (digestInput " HELLO " "" "medium")) 7
      = selectRiskIndices (String.length (digestInput "hello" "" "medium")) 7 :=
  C9_digest_normalization " HELLO " "hello" "" "" "medium" String.length 7
    (by decide) (by decide)

/-- Claim C10: for every non-empty context, every per-feature raw importance
score is at least the 0.1 base floor (both before and after the 3-decimal
rounding that stores it), so the total of the stored raw scores is strictly
positive; the normalization division is therefore never a division by zero,
and the branch returning un-normalized scores is unreachable for non-empty
context — the function always takes the normalizing branch. -/
theorem C10_base_floor_and_reachability (context : ContextMap) (h : context ≠ []) :
    (∀ (key : String) (v : PyVal), 1/10 ≤ calculate_single_feature_importance key v)
    ∧ (∀ kv ∈ rawImportances context, 1/10 ≤ kv.2)
    ∧ 0 < totalImportance context
    ∧ calculate_feature_importance context
      = (rawImportances context).map
          (fun kv => (kv.1, pyRound3 (kv.2 / totalImportance context))) :=
  ⟨fun key v => single_importance_ge key v,
   rawImportances_ge context,
   totalImportance_pos context h,
   calculate_feature_importance_normalized context h⟩

theorem C10_base_floor_and_reachability_witness :
    (∀ (key : String) (v : PyVal), 1/10 ≤ calculate_single_feature_importance key v)
    ∧ (∀ kv ∈ rawImportances [("k", PyVal.bool true)], 1/10 ≤ kv.2)
    ∧ 0 < totalImportance [("k", PyVal.bool true)]
    ∧ calculate_feature_importance [("k", PyVal.bool true)]
      = (rawImportances [("k", PyVal.bool true)]).map
          (fun kv => (kv.1, pyRound3 (kv.2 / totalImportance [("k", PyVal.bool true)]))) :=
  C10_base_floor_and_reachability [("k", PyVal.bool true)] (by simp)
